import Mathlib

/-!
Verification development for the OCI node-pool reconciler cloud function
(file 03b-nodepool-cloudfunc/main.py).

The function is a stateless, poll-driven reconciliation step: each
invocation reads remote provider state, takes one action, and returns a
structured status. We shallowly embed the Python source: every provider
call an invocation makes is modelled as an explicit response value in an
environment record, with Except carrying the raised/ok distinction, and
each Python function becomes a Lean function on those responses. An
additional Trace records which provider calls the invocation issued, so
that ordering and never-calls properties can be stated.

String operations are implemented by structural recursion on the
character list so that concrete instances evaluate inside the kernel:
containsSubstr models the Python substring test "pat in s", strLower
models str.lower (ASCII case folding, sufficient for the ASCII patterns
the source matches), and lstripV models str.lstrip applied to the set of
characters consisting of the letter v.
-/

namespace Cloudfunc

/-- Decides whether the first character list is a prefix of the second. -/
def isPrefixOfChars : List Char → List Char → Bool
  | [], _ => true
  | _ :: _, [] => false
  | p :: ps, c :: cs => p == c && isPrefixOfChars ps cs

/-- Decides whether pat occurs as a contiguous sublist, scanning left to right. -/
def hasSubstrAux (pat : List Char) : List Char → Bool
  | [] => pat.isEmpty
  | c :: cs => isPrefixOfChars pat (c :: cs) || hasSubstrAux pat cs

/-- Embedding of the Python membership test, pat in s, on strings. -/
def containsSubstr (s pat : String) : Bool :=
  hasSubstrAux pat.data s.data

/-- Embedding of str.lower, folding each character with Char.toLower. -/
def strLower (s : String) : String :=
  String.mk (s.data.map Char.toLower)

/-- Embedding of k8s_version.lstrip applied to the character v: removes every
leading v, not just one. -/
def lstripV (s : String) : String :=
  String.mk (s.data.dropWhile (fun c => c == 'v'))

/-- Summary of one node pool as returned by list_node_pools: its id and
lifecycle state. -/
structure NodePoolSummary where
  id : String
  lifecycle_state : String
deriving DecidableEq

/-- One node of a pool as returned by get_node_pool: the free-text diagnostic
and lifecycle state may each be absent (Python None). -/
structure Node where
  name : String
  lifecycle_details : Option String
  lifecycle_state : Option String
deriving DecidableEq

/-- One boot-image catalog entry from get_node_pool_options: the catalog name
may be absent (Python None). -/
structure ImageSource where
  source_name : Option String
  image_id : String
deriving DecidableEq

/-- Placement entry of a create request: availability domain plus subnet. -/
structure NodePoolPlacementConfigDetails where
  availability_domain : String
  subnet_id : String
deriving DecidableEq

/-- Embedding of the CreateNodePoolDetails payload built by create_nodepool:
identity of the pool, sizing, image, and placement list. -/
structure CreateNodePoolDetails where
  compartment_id : String
  cluster_id : String
  name : String
  kubernetes_version : String
  node_shape : String
  ocpus : Nat
  memory_in_gbs : Nat
  image_id : String
  size : Nat
  placement_configs : List NodePoolPlacementConfigDetails
deriving DecidableEq

/-- Configuration dict passed from main to create_nodepool. -/
structure NodePoolCreateConfig where
  compartment_id : String
  cluster_id : String
  node_pool_name : String
  k8s_version : String
  node_shape : String
  ocpus : Nat
  memory_gb : Nat
  node_count : Nat
  image_id : String
  ad_name : String
  subnet_id : String
deriving DecidableEq

/-- Dict returned by create_nodepool on success: the work-request id header
(possibly absent) and the literal status creating. -/
structure CreateResult where
  work_request_id : Option String
  status : String
deriving DecidableEq

/-- Configuration of one invocation, as read from the environment variables at
the top of main. A failed read (missing required variable, bad int) is
modelled as the Except.error case of the value handed to main. -/
structure Config where
  compartment_id : String
  cluster_id : String
  subnet_id : String
  node_shape : String
  node_ocpus : Nat
  node_memory_gb : Nat
  node_count : Nat
  k8s_version : String
  node_pool_name : String
deriving DecidableEq

/-- Remote provider state as observed through the calls one invocation can
make. Each field is the response the provider would give to that call during
this invocation; Except.error models a raised exception. -/
structure Env where
  /-- Response to list_node_pools for the configured compartment, cluster and
  pool name: the (possibly empty) list of matching pools, or a raised error. -/
  list_node_pools : Except String (List NodePoolSummary)
  /-- Response to get_node_pool for a given pool id: the node list of the
  pool (data.nodes, absent nodes modelled as the empty list), or an error. -/
  get_node_pool : String → Except String (List Node)
  /-- Response to delete_node_pool for a given pool id. -/
  delete_node_pool : String → Except String Unit
  /-- Response to create_compute_capacity_report: the availability_status
  strings of the shape_availabilities in order, or a raised error. -/
  capacity_report : Except String (List String)
  /-- Response to list_availability_domains: the domain names in order. -/
  availability_domains : Except String (List String)
  /-- Response to get_node_pool_options: the boot-image catalog. -/
  node_pool_options : Except String (List ImageSource)
  /-- Response to create_node_pool for a given details payload: the
  opc-work-request-id header (possibly absent) on success, or an error. -/
  create_node_pool : CreateNodePoolDetails → Except String (Option String)

/-- Structured result of one invocation: the JSON object main returns,
with the status code and the status-specific fields. -/
structure InvocationResult where
  status : String
  nodepool_id : Option String := none
  deleted_id : Option String := none
  work_request_id : Option String := none
  message : Option String := none
deriving DecidableEq

/-- Record of the provider calls one invocation issued along the
capacity-check-and-create path and the delete path. -/
structure Trace where
  capacity_checks : Nat
  image_lookups : Nat
  create_calls : List CreateNodePoolDetails
  delete_calls : List String
deriving DecidableEq

/-- Trace of an invocation that issued none of the recorded calls. -/
def Trace.empty : Trace :=
  { capacity_checks := 0, image_lookups := 0, create_calls := [], delete_calls := [] }

/-- Result and trace of one invocation together. -/
structure MainOutcome where
  result : InvocationResult
  trace : Trace
deriving DecidableEq

/-- Lifecycle states the source treats as non-terminal when searching for an
existing pool. -/
def NON_TERMINAL_STATES : List String :=
  ["ACTIVE", "CREATING", "UPDATING", "NEEDS_ATTENTION", "FAILED", "DELETING"]

/-- Embedding of check_existing_nodepool: scan the listed pools for the first
one in a non-terminal state and return (id, state); on a raised error or no
match return (none, none). -/
def check_existing_nodepool (resp : Except String (List NodePoolSummary)) :
    Option String × Option String :=
  match resp with
  | .error _ => (none, none)
  | .ok pools =>
    match pools.find? (fun p => NON_TERMINAL_STATES.contains p.lifecycle_state) with
    | some p => (some p.id, some p.lifecycle_state)
    | none => (none, none)

/-- Diagnostic test applied to one node inside is_nodepool_stuck: the
lowercased lifecycle_details (absent details read as the empty string)
contain the capacity-error phrase. -/
def nodeHasCapacityError (n : Node) : Bool :=
  containsSubstr (strLower (n.lifecycle_details.getD "")) "cannot create compute instance"

/-- Embedding of is_nodepool_stuck: false on a raised error or an empty node
list, otherwise true exactly when the count of nodes carrying the capacity
diagnostic equals the number of nodes. -/
def is_nodepool_stuck (resp : Except String (List Node)) : Bool :=
  match resp with
  | .error _ => false
  | .ok nodes =>
    if nodes.isEmpty then false
    else (nodes.filter nodeHasCapacityError).length == nodes.length

/-- Embedding of delete_nodepool: true when the delete call succeeded, false
when it raised (the exception is swallowed). -/
def delete_nodepool (resp : Except String Unit) : Bool :=
  match resp with
  | .ok _ => true
  | .error _ => false

/-- Embedding of check_capacity: true exactly when the capacity-report call
succeeded and the first shape availability status is AVAILABLE. An empty
availability list raises an index error inside the try block, which the
except clause turns into false as well. -/
def check_capacity (resp : Except String (List String)) : Bool :=
  match resp with
  | .error _ => false
  | .ok statuses =>
    match statuses.head? with
    | none => false
    | some s => s == "AVAILABLE"

/-- First loop of get_node_image_id: return the image id of the first catalog
entry whose name contains the stripped version and whose architecture fits
the flag. With the ARM flag set the entry must contain aarch64; with it
unset the entry must contain neither aarch64 nor GPU. -/
def imageFirstPass (vp : String) (is_arm : Bool) : List ImageSource → Option String
  | [] => none
  | s :: rest =>
    let n := s.source_name.getD ""
    if containsSubstr n vp then
      if is_arm && containsSubstr n "aarch64" then some s.image_id
      else if !is_arm && !containsSubstr n "aarch64" && !containsSubstr n "GPU" then
        some s.image_id
      else imageFirstPass vp is_arm rest
    else imageFirstPass vp is_arm rest

/-- Second loop of get_node_image_id: return the image id of the first
catalog entry whose name merely contains the stripped version. -/
def imageFallback (vp : String) : List ImageSource → Option String
  | [] => none
  | s :: rest =>
    if containsSubstr (s.source_name.getD "") vp then some s.image_id
    else imageFallback vp rest

/-- Embedding of get_node_image_id: on a raised error return none, otherwise
strip leading v characters from the version and run the two selection loops
in order. -/
def get_node_image_id (resp : Except String (List ImageSource))
    (k8s_version : String) (is_arm : Bool) : Option String :=
  match resp with
  | .error _ => none
  | .ok sources =>
    let vp := lstripV k8s_version
    match imageFirstPass vp is_arm sources with
    | some imgId => some imgId
    | none => imageFallback vp sources

/-- Details payload create_nodepool builds from its config dict: one node
shape config and exactly one placement entry. -/
def buildCreateDetails (c : NodePoolCreateConfig) : CreateNodePoolDetails :=
  { compartment_id := c.compartment_id
    cluster_id := c.cluster_id
    name := c.node_pool_name
    kubernetes_version := c.k8s_version
    node_shape := c.node_shape
    ocpus := c.ocpus
    memory_in_gbs := c.memory_gb
    image_id := c.image_id
    size := c.node_count
    placement_configs := [{ availability_domain := c.ad_name, subnet_id := c.subnet_id }] }

/-- Embedding of create_nodepool: issue the create call with the built
details; a raised error propagates, success yields the work-request id and
the literal status creating. -/
def create_nodepool (call : CreateNodePoolDetails → Except String (Option String))
    (c : NodePoolCreateConfig) : Except String CreateResult :=
  match call (buildCreateDetails c) with
  | .error e => .error e
  | .ok wri => .ok { work_request_id := wri, status := "creating" }

/-- Branch of main taken when a pool with a truthy id was found: dispatch on
the observed lifecycle state. none models the Python fall-through when no
state clause matches, in which case main continues on the no-pool path.
The delete call issued by the stuck and NEEDS_ATTENTION/FAILED branches is
recorded in the trace; its boolean outcome (delete_nodepool) is discarded by
the source, so the returned result does not depend on it. The notifier call
on the ACTIVE branch swallows every error and does not affect the result,
so it is not modelled. -/
def poolBranch (env : Env) (pid : String) (st : Option String) : Option MainOutcome :=
  if st = some "ACTIVE" then
    some { result := { status := "active", nodepool_id := some pid }, trace := Trace.empty }
  else if st = some "CREATING" || st = some "UPDATING" then
    if is_nodepool_stuck (env.get_node_pool pid) then
      some { result := { status := "stuck_deleted", deleted_id := some pid,
                         message := some "Stuck node pool deleted, will retry on next invocation" },
             trace := { Trace.empty with delete_calls := [pid] } }
    else
      some { result := { status := "creating", nodepool_id := some pid }, trace := Trace.empty }
  else if st = some "NEEDS_ATTENTION" || st = some "FAILED" then
    some { result := { status := "stuck_deleted", deleted_id := some pid,
                       message := some ("Pool in " ++ st.getD "" ++
                         " state deleted, will retry on next invocation") },
           trace := { Trace.empty with delete_calls := [pid] } }
  else if st = some "DELETING" then
    some { result := { status := "deleting", nodepool_id := some pid }, trace := Trace.empty }
  else none

/-- Configuration dict main passes to create_nodepool once capacity is
confirmed and an image is resolved: the configured values plus the chosen
availability domain and image. -/
def mainCreateConfig (cfg : Config) (ad_name imgId : String) : NodePoolCreateConfig :=
  { compartment_id := cfg.compartment_id
    cluster_id := cfg.cluster_id
    node_pool_name := cfg.node_pool_name
    k8s_version := cfg.k8s_version
    node_shape := cfg.node_shape
    ocpus := cfg.node_ocpus
    memory_gb := cfg.node_memory_gb
    node_count := cfg.node_count
    image_id := imgId
    ad_name := ad_name
    subnet_id := cfg.subnet_id }

/-- No-pool path of main: pick the first availability domain (an empty list
raises an index error that the outer handler turns into an error status),
check capacity, resolve the image, and create the pool. The trace counts the
capacity check, the image lookup, and the create call. The notifier call
after a successful create swallows every error and is not modelled. -/
def mainNoPool (env : Env) (cfg : Config) (is_arm : Bool) : MainOutcome :=
  match env.availability_domains with
  | .error e => { result := { status := "error", message := some e }, trace := Trace.empty }
  | .ok ads =>
    match ads.head? with
    | none =>
      { result := { status := "error", message := some "list index out of range" },
        trace := Trace.empty }
    | some ad_name =>
      if !check_capacity env.capacity_report then
        { result := { status := "no_capacity" },
          trace := { Trace.empty with capacity_checks := 1 } }
      else
        match get_node_image_id env.node_pool_options cfg.k8s_version is_arm with
        | none =>
          { result := { status := "error", message := some "Could not find node image" },
            trace := { Trace.empty with capacity_checks := 1, image_lookups := 1 } }
        | some imgId =>
          if imgId = "" then
            { result := { status := "error", message := some "Could not find node image" },
              trace := { Trace.empty with capacity_checks := 1, image_lookups := 1 } }
          else
            let c : NodePoolCreateConfig := mainCreateConfig cfg ad_name imgId
            let t : Trace :=
              { capacity_checks := 1, image_lookups := 1,
                create_calls := [buildCreateDetails c], delete_calls := [] }
            match create_nodepool env.create_node_pool c with
            | .error e => { result := { status := "error", message := some e }, trace := t }
            | .ok r =>
              { result := { status := "creating", work_request_id := r.work_request_id },
                trace := t }

/-- Embedding of main: load configuration (a failed load raises into the
outer handler), derive the ARM flag from the shape name, look for an
existing pool, and either dispatch on its state or fall through to the
no-pool path. The Python guard if pool_id is a truthiness test, so a found
pool whose id is the empty string falls through exactly like no pool. Every
raised error reaching the outer boundary becomes an error status carrying
the exception text. -/
def main (env : Env) (cfgE : Except String Config) : MainOutcome :=
  match cfgE with
  | .error e => { result := { status := "error", message := some e }, trace := Trace.empty }
  | .ok cfg =>
    let is_arm := containsSubstr cfg.node_shape "A1"
    match check_existing_nodepool env.list_node_pools with
    | (some pid, st) =>
      if pid = "" then mainNoPool env cfg is_arm
      else (poolBranch env pid st).getD (mainNoPool env cfg is_arm)
    | (none, _) => mainNoPool env cfg is_arm

/-- Status codes the documentation of main enumerates. -/
def STATUS_CODES : List String :=
  ["active", "creating", "no_capacity", "stuck_deleted", "deleting", "error"]

/-- Helper: a filter keeps the whole list exactly when every element satisfies
the predicate. -/
theorem length_filter_eq_length_iff_all {α : Type} (p : α → Bool) (l : List α) :
    ((l.filter p).length = l.length) ↔ ∀ a ∈ l, p a = true := by
  induction l with
  | nil => simp
  | cons a l ih =>
    cases hpa : p a with
    | true => simp [List.filter_cons, hpa, ih]
    | false =>
      simp only [List.filter_cons, hpa, Bool.false_eq_true, if_false, List.length_cons]
      have hle := List.length_filter_le p l
      constructor
      · intro h; omega
      · intro h
        have hmem := h a (by simp)
        rw [hpa] at hmem
        exact absurd hmem (by simp)

/-- Helper: a successful check_existing_nodepool lookup only reports states
from the non-terminal set. -/
theorem check_existing_nodepool_state_nonterminal
    (resp : Except String (List NodePoolSummary)) (pid st : String)
    (h : check_existing_nodepool resp = (some pid, some st)) :
    NON_TERMINAL_STATES.contains st = true := by
  cases resp with
  | error e => simp [check_existing_nodepool] at h
  | ok pools =>
    simp only [check_existing_nodepool] at h
    cases hf : pools.find? (fun p => NON_TERMINAL_STATES.contains p.lifecycle_state) with
    | none => rw [hf] at h; simp at h
    | some p =>
      rw [hf] at h
      have hp := List.find?_some hf
      simp only [Prod.mk.injEq, Option.some.injEq] at h
      rw [← h.2]
      exact hp

/-- C2: stuck detection is an all-or-nothing test. is_nodepool_stuck is true
exactly when the node-list query succeeded with a non-empty list of nodes
every one of which carries the capacity diagnostic (the lowercased
lifecycle_details contain the phrase cannot create compute instance); hence
a list where only some nodes match, an empty list, and a failed query all
yield false. -/
theorem C2_is_nodepool_stuck_iff (resp : Except String (List Node)) :
    is_nodepool_stuck resp = true ↔
      ∃ nodes, resp = Except.ok nodes ∧ nodes ≠ [] ∧
        ∀ n ∈ nodes,
          containsSubstr (strLower (n.lifecycle_details.getD ""))
            "cannot create compute instance" = true := by
  cases resp with
  | error e => simp [is_nodepool_stuck]
  | ok nodes =>
    simp only [is_nodepool_stuck, Except.ok.injEq]
    by_cases hne : nodes.isEmpty = true
    · rw [if_pos hne]
      have hnil : nodes = [] := by simpa using hne
      subst hnil
      simp
    · rw [if_neg hne]
      have hnil : nodes ≠ [] := by simpa using hne
      constructor
      · intro h
        refine ⟨nodes, rfl, hnil, ?_⟩
        have hlen : (nodes.filter nodeHasCapacityError).length = nodes.length := by
          simpa using h
        intro n hn
        exact (length_filter_eq_length_iff_all nodeHasCapacityError nodes).mp hlen n hn
      · rintro ⟨ns, hns, _, hall⟩
        cases hns
        have hlen : (nodes.filter nodeHasCapacityError).length = nodes.length :=
          (length_filter_eq_length_iff_all nodeHasCapacityError nodes).mpr hall
        simpa using hlen

/-- C2 witness: a single-node list whose diagnostic carries the capacity
phrase in mixed case is classified as stuck, through the characterization
theorem. -/
theorem C2_witness :
    is_nodepool_stuck (Except.ok
      [{ name := "n0",
         lifecycle_details := some "Cannot CREATE compute instance: out of capacity",
         lifecycle_state := some "CREATING" }]) = true :=
  (C2_is_nodepool_stuck_iff
      (Except.ok
        [{ name := "n0",
           lifecycle_details := some "Cannot CREATE compute instance: out of capacity",
           lifecycle_state := some "CREATING" }])).mpr
    ⟨[{ name := "n0",
        lifecycle_details := some "Cannot CREATE compute instance: out of capacity",
        lifecycle_state := some "CREATING" }], rfl, by decide, by decide⟩

/-- C7: a raised error in the pool-listing query makes
check_existing_nodepool report none found rather than raising, and the whole
invocation then behaves exactly as if the provider had returned an empty
pool list: it falls through to the capacity-check and create path. -/
theorem C7_list_error_reports_none_and_falls_through
    (env : Env) (cfgE : Except String Config) (e : String) :
    check_existing_nodepool (Except.error e) = (none, none) ∧
    main { env with list_node_pools := Except.error e } cfgE =
      main { env with list_node_pools := Except.ok [] } cfgE := by
  refine ⟨rfl, ?_⟩
  cases cfgE with
  | error e2 => rfl
  | ok cfg => rfl

/-- Helper: on a successful config load with a found pool of non-empty id,
main dispatches to poolBranch and falls back to the no-pool path. -/
theorem main_ok_found (env : Env) (cfg : Config) (pid st : String)
    (h : check_existing_nodepool env.list_node_pools = (some pid, some st))
    (hpid : pid ≠ "") :
    main env (Except.ok cfg) =
      (poolBranch env pid (some st)).getD
        (mainNoPool env cfg (containsSubstr cfg.node_shape "A1")) := by
  unfold main
  rw [h]
  simp [hpid]

/-- Helper: on a successful config load with no pool found, main runs the
no-pool path. -/
theorem main_ok_nofound (env : Env) (cfg : Config)
    (h : check_existing_nodepool env.list_node_pools = (none, none)) :
    main env (Except.ok cfg) = mainNoPool env cfg (containsSubstr cfg.node_shape "A1") := by
  unfold main
  rw [h]

/-- Helper: every outcome of the found-pool branch carries a status from the
enumerated set and a trace with no capacity check, no image lookup and no
create call. -/
theorem poolBranch_outcome (env : Env) (pid : String) (st : Option String)
    (o : MainOutcome) (h : poolBranch env pid st = some o) :
    o.result.status ∈ STATUS_CODES ∧
    o.trace.capacity_checks = 0 ∧ o.trace.image_lookups = 0 ∧
    o.trace.create_calls = [] := by
  unfold poolBranch at h
  split_ifs at h <;>
    first
      | exact Option.noConfusion h
      | (injection h with h; subst h; refine ⟨by simp [STATUS_CODES], rfl, rfl, rfl⟩)

/-- Helper: the no-pool path always returns a status from the enumerated
set. -/
theorem mainNoPool_status_mem (env : Env) (cfg : Config) (b : Bool) :
    (mainNoPool env cfg b).result.status ∈ STATUS_CODES := by
  unfold mainNoPool
  split
  · simp [STATUS_CODES]
  · split
    · simp [STATUS_CODES]
    · split
      · simp [STATUS_CODES]
      · split
        · simp [STATUS_CODES]
        · split
          · simp [STATUS_CODES]
          · dsimp only
            split <;> simp [STATUS_CODES]

/-- C9: main never propagates an exception. Every behavior of the provider
calls and of the configuration load yields a structured result whose status
is one of the six enumerated codes, and a raised configuration-load error is
converted at the outer boundary into the error status carrying the
exception text. -/
theorem C9_main_total_status_enumerated (env : Env) (cfgE : Except String Config) :
    (main env cfgE).result.status ∈ STATUS_CODES ∧
    (∀ e, cfgE = Except.error e →
      (main env cfgE).result = { status := "error", message := some e }) := by
  cases cfgE with
  | error e =>
    refine ⟨by simp [main, STATUS_CODES], ?_⟩
    intro e2 he
    injection he with he
    subst he
    rfl
  | ok cfg =>
    refine ⟨?_, by intro e he; exact Except.noConfusion he⟩
    unfold main
    cases hc : check_existing_nodepool env.list_node_pools with
    | mk fst snd =>
      cases fst with
      | none => exact mainNoPool_status_mem env cfg _
      | some pid =>
        by_cases hpid : pid = ""
        · simp only [hpid, if_pos rfl]
          exact mainNoPool_status_mem env cfg _
        · simp only [if_neg hpid]
          cases hb : poolBranch env pid snd with
          | none => simpa [hb] using mainNoPool_status_mem env cfg (containsSubstr cfg.node_shape "A1")
          | some o =>
            simpa [hb] using (poolBranch_outcome env pid snd o hb).1

/-- Helper: for every state of the non-terminal set the found-pool branch
takes one of its clauses, so the Python fall-through cannot happen there. -/
theorem poolBranch_isSome_of_nonterminal (env : Env) (pid st : String)
    (hst : NON_TERMINAL_STATES.contains st = true) :
    poolBranch env pid (some st) ≠ none := by
  have hmem : st = "ACTIVE" ∨ st = "CREATING" ∨ st = "UPDATING" ∨
      st = "NEEDS_ATTENTION" ∨ st = "FAILED" ∨ st = "DELETING" := by
    simpa [NON_TERMINAL_STATES] using hst
  rcases hmem with h | h | h | h | h | h <;> subst h <;>
    (unfold poolBranch; split_ifs <;> simp_all)

/-- Configuration used by the concrete instances below: the documented
default values of the optional settings. -/
def cfgW : Config :=
  { compartment_id := "ocid1.tenancy.t", cluster_id := "ocid1.cluster.c",
    subnet_id := "ocid1.subnet.s", node_shape := "VM.Standard.A1.Flex",
    node_ocpus := 2, node_memory_gb := 12, node_count := 2,
    k8s_version := "v1.32.1", node_pool_name := "my-nodes" }

/-- Remote state used by the concrete instances below: no existing pool,
one availability domain, capacity available, one matching ARM image, and a
create call that succeeds with a work-request id. -/
def envBase : Env :=
  { list_node_pools := Except.ok [],
    get_node_pool := fun _ => Except.ok [],
    delete_node_pool := fun _ => Except.ok (),
    capacity_report := Except.ok ["AVAILABLE"],
    availability_domains := Except.ok ["AD-1"],
    node_pool_options := Except.ok
      [{ source_name := some "Oracle-Linux-8-aarch64-OKE-1.32.1", image_id := "img-arm" }],
    create_node_pool := fun _ => Except.ok (some "wr-1") }

/-- Remote state refuting C1 as stated: the listed pools contain a pool of
the configured name in the non-terminal state CREATING, but its id is the
empty string. -/
def envEmptyIdPool : Env :=
  { envBase with
    list_node_pools := Except.ok [{ id := "", lifecycle_state := "CREATING" }] }

/-- C1 counterexample: a pool is observed in the non-terminal state CREATING,
yet the invocation still issues the capacity check, the image lookup and a
create call, because the Python guard if pool_id is a truthiness test and
the observed pool id is the empty string. -/
theorem C1_counterexample_empty_id_pool :
    envEmptyIdPool.list_node_pools =
      Except.ok [{ id := "", lifecycle_state := "CREATING" }] ∧
    NON_TERMINAL_STATES.contains "CREATING" = true ∧
    (main envEmptyIdPool (Except.ok cfgW)).trace.capacity_checks = 1 ∧
    (main envEmptyIdPool (Except.ok cfgW)).trace.image_lookups = 1 ∧
    (main envEmptyIdPool (Except.ok cfgW)).trace.create_calls.length = 1 :=
  ⟨rfl, rfl, rfl, rfl, rfl⟩

/-- C1 (amended): when the first pool observed in a non-terminal state has a
non-empty identifier, the invocation issues no capacity check, no image
lookup and no create call: the existing-pool check gates the whole
check-capacity-and-create path. -/
theorem C1_found_pool_gates_create (env : Env) (cfgE : Except String Config)
    (pid st : String)
    (h : check_existing_nodepool env.list_node_pools = (some pid, some st))
    (hpid : pid ≠ "") :
    (main env cfgE).trace.capacity_checks = 0 ∧
    (main env cfgE).trace.image_lookups = 0 ∧
    (main env cfgE).trace.create_calls = [] := by
  cases cfgE with
  | error e => exact ⟨rfl, rfl, rfl⟩
  | ok cfg =>
    rw [main_ok_found env cfg pid st h hpid]
    have hst := check_existing_nodepool_state_nonterminal _ _ _ h
    cases hb : poolBranch env pid (some st) with
    | none => exact absurd hb (poolBranch_isSome_of_nonterminal env pid st hst)
    | some o =>
      simp only [Option.getD_some]
      obtain ⟨-, h1, h2, h3⟩ := poolBranch_outcome env pid (some st) o hb
      exact ⟨h1, h2, h3⟩

/-- C1 witness: concrete invocation with an ACTIVE pool of non-empty id,
where the amended theorem applies and no create-path call is traced. -/
theorem C1_witness :
    (main { envBase with
        list_node_pools := Except.ok [{ id := "p1", lifecycle_state := "ACTIVE" }] }
      (Except.ok cfgW)).trace.capacity_checks = 0 ∧
    (main { envBase with
        list_node_pools := Except.ok [{ id := "p1", lifecycle_state := "ACTIVE" }] }
      (Except.ok cfgW)).trace.image_lookups = 0 ∧
    (main { envBase with
        list_node_pools := Except.ok [{ id := "p1", lifecycle_state := "ACTIVE" }] }
      (Except.ok cfgW)).trace.create_calls = [] :=
  C1_found_pool_gates_create _ _ "p1" "ACTIVE" rfl (by decide)

/-- Status classification of the non-ACTIVE non-terminal states, read off
the reconciler table: CREATING and UPDATING report stuck_deleted or creating
according to the stuck check, NEEDS_ATTENTION and FAILED report
stuck_deleted, DELETING reports deleting. -/
def classifyNonActive (st : String) (stuck : Bool) : String :=
  if st = "CREATING" || st = "UPDATING" then
    if stuck then "stuck_deleted" else "creating"
  else if st = "NEEDS_ATTENTION" || st = "FAILED" then "stuck_deleted"
  else "deleting"

/-- C3: classification is deterministic in the observed remote state. Two
invocations against identical remote state return the same status, and for
every non-terminal observed state other than ACTIVE that status is a pure
function of the observed state and the re-derived stuck bit; the reconciler
keeps no memory between invocations. -/
theorem C3_classification_deterministic (env1 env2 : Env) (cfg : Config)
    (pid st : String)
    (henv : env1 = env2)
    (h : check_existing_nodepool env1.list_node_pools = (some pid, some st))
    (hpid : pid ≠ "")
    (hst : st ∈ ["CREATING", "UPDATING", "NEEDS_ATTENTION", "FAILED", "DELETING"]) :
    (main env1 (Except.ok cfg)).result.status =
      (main env2 (Except.ok cfg)).result.status ∧
    (main env1 (Except.ok cfg)).result.status =
      classifyNonActive st (is_nodepool_stuck (env1.get_node_pool pid)) := by
  subst henv
  refine ⟨rfl, ?_⟩
  rw [main_ok_found env1 cfg pid st h hpid]
  fin_cases hst <;>
    cases hstuck : is_nodepool_stuck (env1.get_node_pool pid) <;>
      simp [poolBranch, classifyNonActive, hstuck]

/-- C3 witness: concrete invocation observing a CREATING pool whose nodes
all carry the capacity diagnostic; both statuses agree and equal the
classification function at the observed state. -/
theorem C3_witness :
    (main { envBase with
        list_node_pools := Except.ok [{ id := "p1", lifecycle_state := "CREATING" }],
        get_node_pool := fun _ => Except.ok
          [{ name := "n0", lifecycle_details := some "cannot create compute instance",
             lifecycle_state := some "UPDATING" }] }
      (Except.ok cfgW)).result.status =
      (main { envBase with
          list_node_pools := Except.ok [{ id := "p1", lifecycle_state := "CREATING" }],
          get_node_pool := fun _ => Except.ok
            [{ name := "n0", lifecycle_details := some "cannot create compute instance",
               lifecycle_state := some "UPDATING" }] }
        (Except.ok cfgW)).result.status ∧
    (main { envBase with
        list_node_pools := Except.ok [{ id := "p1", lifecycle_state := "CREATING" }],
        get_node_pool := fun _ => Except.ok
          [{ name := "n0", lifecycle_details := some "cannot create compute instance",
             lifecycle_state := some "UPDATING" }] }
      (Except.ok cfgW)).result.status =
      classifyNonActive "CREATING"
        (is_nodepool_stuck
          (({ envBase with
              list_node_pools := Except.ok [{ id := "p1", lifecycle_state := "CREATING" }],
              get_node_pool := fun _ => Except.ok
                [{ name := "n0", lifecycle_details := some "cannot create compute instance",
                   lifecycle_state := some "UPDATING" }] } : Env).get_node_pool "p1")) :=
  C3_classification_deterministic _ _ cfgW "p1" "CREATING" rfl rfl (by decide) (by simp)

/-- C8: a pool observed stuck in CREATING or UPDATING, or observed in
NEEDS_ATTENTION or FAILED, is reported as stuck_deleted with its id as
deleted_id, with one delete call traced, and this holds for every behavior
of the delete response because delete_nodepool swallows a raised error into
false rather than letting it propagate. -/
theorem C8_delete_failure_swallowed (env : Env) (cfg : Config)
    (pid st e : String)
    (h : check_existing_nodepool env.list_node_pools = (some pid, some st))
    (hpid : pid ≠ "")
    (hcase : ((st = "CREATING" ∨ st = "UPDATING") ∧
                is_nodepool_stuck (env.get_node_pool pid) = true) ∨
             st = "NEEDS_ATTENTION" ∨ st = "FAILED") :
    (main env (Except.ok cfg)).result.status = "stuck_deleted" ∧
    (main env (Except.ok cfg)).result.deleted_id = some pid ∧
    (main env (Except.ok cfg)).trace.delete_calls = [pid] ∧
    delete_nodepool (Except.error e) = false ∧
    delete_nodepool (Except.ok ()) = true := by
  rw [main_ok_found env cfg pid st h hpid]
  rcases hcase with ⟨hor, hstuck⟩ | hor
  · rcases hor with h' | h' <;> subst h' <;>
      simp [poolBranch, hstuck, delete_nodepool]
  · rcases hor with h' | h' <;> subst h' <;>
      simp [poolBranch, delete_nodepool]

/-- C8 witness: concrete invocation observing a FAILED pool while the delete
call raises; the status is still stuck_deleted with the pool id. -/
theorem C8_witness :
    (main { envBase with
        list_node_pools := Except.ok [{ id := "p9", lifecycle_state := "FAILED" }],
        delete_node_pool := fun _ => Except.error "boom" }
      (Except.ok cfgW)).result.status = "stuck_deleted" ∧
    (main { envBase with
        list_node_pools := Except.ok [{ id := "p9", lifecycle_state := "FAILED" }],
        delete_node_pool := fun _ => Except.error "boom" }
      (Except.ok cfgW)).result.deleted_id = some "p9" ∧
    (main { envBase with
        list_node_pools := Except.ok [{ id := "p9", lifecycle_state := "FAILED" }],
        delete_node_pool := fun _ => Except.error "boom" }
      (Except.ok cfgW)).trace.delete_calls = ["p9"] ∧
    delete_nodepool (Except.error "boom") = false ∧
    delete_nodepool (Except.ok ()) = true :=
  C8_delete_failure_swallowed _ cfgW "p9" "FAILED" "boom" rfl (by decide)
    (Or.inr (Or.inr rfl))

/-- C9 witness: concrete invocation whose configuration load raised; the
status is among the enumerated codes and the result carries the exception
text. -/
theorem C9_witness :
    (main envBase (Except.error "missing OCI_USER_OCID")).result.status ∈ STATUS_CODES ∧
    (main envBase (Except.error "missing OCI_USER_OCID")).result =
      { status := "error", message := some "missing OCI_USER_OCID" } :=
  ⟨(C9_main_total_status_enumerated envBase (Except.error "missing OCI_USER_OCID")).1,
   (C9_main_total_status_enumerated envBase (Except.error "missing OCI_USER_OCID")).2
     "missing OCI_USER_OCID" rfl⟩

/-- C4: with no matching pool found and a reachable capacity check, a
capacity report that raises or whose first status is not AVAILABLE makes
check_capacity false (fail closed), the invocation returns the status
no_capacity, and no create call occurs. -/
theorem C4_capacity_fail_closed (env : Env) (cfg : Config)
    (ad : String) (rest : List String)
    (hfound : check_existing_nodepool env.list_node_pools = (none, none))
    (hads : env.availability_domains = Except.ok (ad :: rest))
    (hcap : (∃ e, env.capacity_report = Except.error e) ∨
            (∃ s statuses, env.capacity_report = Except.ok (s :: statuses) ∧
              s ≠ "AVAILABLE")) :
    check_capacity env.capacity_report = false ∧
    (main env (Except.ok cfg)).result.status = "no_capacity" ∧
    (main env (Except.ok cfg)).trace.create_calls = [] := by
  have hcc : check_capacity env.capacity_report = false := by
    rcases hcap with ⟨e, he⟩ | ⟨s, statuses, hok, hs⟩
    · simp [check_capacity, he]
    · simp [check_capacity, hok, hs]
  refine ⟨hcc, ?_⟩
  rw [main_ok_nofound env cfg hfound]
  unfold mainNoPool
  rw [hads]
  simp [hcc, Trace.empty]

/-- C4 witness: concrete invocation with no pool and an out-of-capacity
report; the status is no_capacity and no create call is traced. -/
theorem C4_witness :
    check_capacity ({ envBase with
        capacity_report := Except.ok ["OUT_OF_HOST_CAPACITY"] } : Env).capacity_report = false ∧
    (main { envBase with capacity_report := Except.ok ["OUT_OF_HOST_CAPACITY"] }
      (Except.ok cfgW)).result.status = "no_capacity" ∧
    (main { envBase with capacity_report := Except.ok ["OUT_OF_HOST_CAPACITY"] }
      (Except.ok cfgW)).trace.create_calls = [] :=
  C4_capacity_fail_closed _ cfgW "AD-1" [] rfl rfl
    (Or.inr ⟨"OUT_OF_HOST_CAPACITY", [], rfl, by decide⟩)

/-- C5: with no matching pool found, a non-empty availability-domain list,
capacity available, and a resolved non-empty image id, the invocation
issues exactly one create call whose payload carries a single placement at
the first listed availability domain with the configured subnet, and whose
sizing, shape, node count and Kubernetes version equal the configured
values; when the create call succeeds the invocation returns status
creating with the work-request id of that call. -/
theorem C5_create_call_exact (env : Env) (cfg : Config)
    (ad : String) (rest : List String) (img : String) (wri : Option String)
    (hfound : check_existing_nodepool env.list_node_pools = (none, none))
    (hads : env.availability_domains = Except.ok (ad :: rest))
    (hcap : check_capacity env.capacity_report = true)
    (himg : get_node_image_id env.node_pool_options cfg.k8s_version
              (containsSubstr cfg.node_shape "A1") = some img)
    (himgne : img ≠ "")
    (hcreate : env.create_node_pool
        (buildCreateDetails (mainCreateConfig cfg ad img)) = Except.ok wri) :
    (main env (Except.ok cfg)).trace.create_calls =
      [buildCreateDetails (mainCreateConfig cfg ad img)] ∧
    (buildCreateDetails (mainCreateConfig cfg ad img)).placement_configs =
      [{ availability_domain := ad, subnet_id := cfg.subnet_id }] ∧
    (buildCreateDetails (mainCreateConfig cfg ad img)).ocpus = cfg.node_ocpus ∧
    (buildCreateDetails (mainCreateConfig cfg ad img)).memory_in_gbs = cfg.node_memory_gb ∧
    (buildCreateDetails (mainCreateConfig cfg ad img)).node_shape = cfg.node_shape ∧
    (buildCreateDetails (mainCreateConfig cfg ad img)).size = cfg.node_count ∧
    (buildCreateDetails (mainCreateConfig cfg ad img)).kubernetes_version = cfg.k8s_version ∧
    (main env (Except.ok cfg)).result.status = "creating" ∧
    (main env (Except.ok cfg)).result.work_request_id = wri := by
  have hmain : main env (Except.ok cfg) =
      { result := { status := "creating", work_request_id := wri },
        trace := { capacity_checks := 1, image_lookups := 1,
                   create_calls := [buildCreateDetails (mainCreateConfig cfg ad img)],
                   delete_calls := [] } } := by
    rw [main_ok_nofound env cfg hfound]
    unfold mainNoPool
    rw [hads]
    simp only [List.head?_cons, hcap, Bool.not_true, Bool.false_eq_true, if_false, himg]
    rw [if_neg himgne]
    unfold create_nodepool
    rw [hcreate]
  rw [hmain]
  exact ⟨rfl, rfl, rfl, rfl, rfl, rfl, rfl, rfl, rfl⟩

/-- C5 witness: concrete invocation with no pool, capacity available and a
matching ARM image; exactly the expected create call is traced and the
status is creating with the returned work-request id. -/
theorem C5_witness :
    (main envBase (Except.ok cfgW)).trace.create_calls =
      [buildCreateDetails (mainCreateConfig cfgW "AD-1" "img-arm")] ∧
    (buildCreateDetails (mainCreateConfig cfgW "AD-1" "img-arm")).placement_configs =
      [{ availability_domain := "AD-1", subnet_id := cfgW.subnet_id }] ∧
    (buildCreateDetails (mainCreateConfig cfgW "AD-1" "img-arm")).ocpus = cfgW.node_ocpus ∧
    (buildCreateDetails (mainCreateConfig cfgW "AD-1" "img-arm")).memory_in_gbs =
      cfgW.node_memory_gb ∧
    (buildCreateDetails (mainCreateConfig cfgW "AD-1" "img-arm")).node_shape =
      cfgW.node_shape ∧
    (buildCreateDetails (mainCreateConfig cfgW "AD-1" "img-arm")).size = cfgW.node_count ∧
    (buildCreateDetails (mainCreateConfig cfgW "AD-1" "img-arm")).kubernetes_version =
      cfgW.k8s_version ∧
    (main envBase (Except.ok cfgW)).result.status = "creating" ∧
    (main envBase (Except.ok cfgW)).result.work_request_id = some "wr-1" :=
  C5_create_call_exact envBase cfgW "AD-1" [] "img-arm" (some "wr-1")
    rfl rfl rfl (by decide) (by decide) rfl

/-- Architecture filter of the first selection loop as the amended claim
words it: with the ARM flag the name must contain aarch64 (GPU labelling is
not examined); without it the name must contain neither aarch64 nor GPU. -/
def archSelects (is_arm : Bool) (n : String) : Bool :=
  if is_arm then containsSubstr n "aarch64"
  else !containsSubstr n "aarch64" && !containsSubstr n "GPU"

/-- Image selection following the amended claim wording: the first entry
whose name contains the stripped version and passes the architecture
filter; only if none exists, the first entry whose name merely contains the
stripped version; otherwise none. -/
def imageSelectionSpec (sources : List ImageSource) (vp : String) (is_arm : Bool) :
    Option String :=
  match sources.find? (fun s => containsSubstr (s.source_name.getD "") vp &&
      archSelects is_arm (s.source_name.getD "")) with
  | some s => some s.image_id
  | none =>
    match sources.find? (fun s => containsSubstr (s.source_name.getD "") vp) with
    | some s => some s.image_id
    | none => none

/-- Helper: the first selection loop returns the first entry satisfying the
combined version and architecture predicate. -/
theorem imageFirstPass_eq_find (vp : String) (is_arm : Bool)
    (sources : List ImageSource) :
    imageFirstPass vp is_arm sources =
      Option.map ImageSource.image_id
        (sources.find? (fun s => containsSubstr (s.source_name.getD "") vp &&
          archSelects is_arm (s.source_name.getD ""))) := by
  induction sources with
  | nil => rfl
  | cons s rest ih =>
    cases hv : containsSubstr (s.source_name.getD "") vp <;>
      cases ha : is_arm <;>
        cases h64 : containsSubstr (s.source_name.getD "") "aarch64" <;>
          cases hg : containsSubstr (s.source_name.getD "") "GPU" <;>
            simp_all [imageFirstPass, List.find?_cons, archSelects]

/-- Helper: the fallback loop returns the first entry whose name contains
the stripped version. -/
theorem imageFallback_eq_find (vp : String) (sources : List ImageSource) :
    imageFallback vp sources =
      Option.map ImageSource.image_id
        (sources.find? (fun s => containsSubstr (s.source_name.getD "") vp)) := by
  induction sources with
  | nil => rfl
  | cons s rest ih =>
    cases hv : containsSubstr (s.source_name.getD "") vp <;>
      simp_all [imageFallback, List.find?_cons]

/-- Catalog refuting C6 as stated: the first entry is an ARM image labelled
GPU, the second is an ARM image without the GPU label; both contain the
version substring. -/
def gpuArmCatalog : List ImageSource :=
  [ { source_name := some "Oracle-Linux-8-aarch64-GPU-OKE-1.32.1", image_id := "img-gpu-arm" },
    { source_name := some "Oracle-Linux-8-aarch64-OKE-1.32.1", image_id := "img-arm" } ]

/-- C6 counterexample: with the ARM flag true the resolver selects the
GPU-labelled ARM entry in the first pass even though a GPU-free
architecture-exact match exists, because the ARM branch of the source only
tests for aarch64 and never examines the GPU label; the claim would require
the GPU-free entry img-arm to be selected. -/
theorem C6_counterexample_arm_branch_keeps_gpu :
    containsSubstr "Oracle-Linux-8-aarch64-GPU-OKE-1.32.1" "GPU" = true ∧
    containsSubstr "Oracle-Linux-8-aarch64-GPU-OKE-1.32.1" "aarch64" = true ∧
    containsSubstr "Oracle-Linux-8-aarch64-GPU-OKE-1.32.1" "1.32.1" = true ∧
    containsSubstr "Oracle-Linux-8-aarch64-OKE-1.32.1" "GPU" = false ∧
    containsSubstr "Oracle-Linux-8-aarch64-OKE-1.32.1" "aarch64" = true ∧
    containsSubstr "Oracle-Linux-8-aarch64-OKE-1.32.1" "1.32.1" = true ∧
    get_node_image_id (Except.ok gpuArmCatalog) "v1.32.1" true = some "img-gpu-arm" ∧
    get_node_image_id (Except.ok gpuArmCatalog) "v1.32.1" true ≠ some "img-arm" :=
  ⟨rfl, rfl, rfl, rfl, rfl, rfl, rfl, by decide⟩

/-- C6 (amended): image resolution with the ARM flag true selects the first
entry containing both the stripped version substring and the ARM marker
(GPU labelling is not examined in that case); with the ARM flag false it
selects the first entry containing the version substring and neither the
ARM marker nor a GPU label; only if no such architecture match exists does
it fall back to the first entry merely containing the version substring,
and a raised catalog error yields none. -/
theorem C6_image_selection_characterized (sources : List ImageSource)
    (v : String) (is_arm : Bool) (e : String) :
    get_node_image_id (Except.ok sources) v is_arm =
      imageSelectionSpec sources (lstripV v) is_arm ∧
    get_node_image_id (Except.error e) v is_arm = none := by
  refine ⟨?_, rfl⟩
  simp only [get_node_image_id, imageSelectionSpec]
  rw [imageFirstPass_eq_find, imageFallback_eq_find]
  cases sources.find? (fun s => containsSubstr (s.source_name.getD "") (lstripV v) &&
      archSelects is_arm (s.source_name.getD "")) with
  | none =>
    cases sources.find? (fun s => containsSubstr (s.source_name.getD "") (lstripV v)) with
    | none => rfl
    | some s => rfl
  | some s => rfl

/-- Helper: the empty pattern is contained in every string, as in Python. -/
theorem containsSubstr_empty_pat (n : String) : containsSubstr n "" = true := by
  show hasSubstrAux [] n.data = true
  cases n.data with
  | nil => rfl
  | cons c cs => rfl

/-- C10: version stripping removes every leading v, so vv1.32.1 resolves
exactly like v1.32.1; a version consisting only of v characters strips to
the empty substring, which is contained in every catalog name, so the first
pass reduces to the pure architecture filter and resolution fails only when
the catalog itself is empty. -/
theorem C10_lstrip_all_leading_v (sources : List ImageSource) (is_arm : Bool)
    (n : String) :
    lstripV "vv1.32.1" = "1.32.1" ∧
    lstripV "v1.32.1" = "1.32.1" ∧
    get_node_image_id (Except.ok sources) "vv1.32.1" is_arm =
      get_node_image_id (Except.ok sources) "v1.32.1" is_arm ∧
    containsSubstr n "" = true ∧
    lstripV "vvvv" = "" ∧
    lstripV "" = "" ∧
    get_node_image_id (Except.ok sources) "vvvv" is_arm =
      get_node_image_id (Except.ok sources) "" is_arm ∧
    imageFirstPass "" is_arm sources =
      Option.map ImageSource.image_id
        (sources.find? (fun s => archSelects is_arm (s.source_name.getD ""))) ∧
    (get_node_image_id (Except.ok sources) "vvvv" is_arm).isSome = !sources.isEmpty := by
  refine ⟨rfl, rfl, rfl, containsSubstr_empty_pat n, rfl, rfl, rfl, ?_, ?_⟩
  · rw [imageFirstPass_eq_find]
    simp [containsSubstr_empty_pat]
  · show (get_node_image_id (Except.ok sources) "" is_arm).isSome = !sources.isEmpty
    have hv : lstripV "" = "" := rfl
    simp only [get_node_image_id, hv]
    cases hfp : imageFirstPass "" is_arm sources with
    | some imgId =>
      dsimp only
      cases sources with
      | nil => simp [imageFirstPass] at hfp
      | cons s rest => simp
    | none =>
      dsimp only
      rw [imageFallback_eq_find]
      cases sources with
      | nil => simp
      | cons s rest => simp [List.find?_cons, containsSubstr_empty_pat]

end Cloudfunc
